import Mathlib

/-!
Shallow embedding of the hand-written C glue of the libcrun Go binding
(`go_crun.c`): the error marshaler, the wire log relay, the launch
supervisor (fork / fd redirection / sync-pipe handshake), the exit-status
resolver and the process-wide log-callback slot.  System calls whose
outcome is decided by the kernel (dup2, open, read, waitpid, allocation)
are passed in as explicit oracle values; the functions below mirror the C
control flow over those oracles.
-/

namespace GoCrun

/-- A libcrun error value: the system error code (`status`, 0 = none) and the
message, mirroring the fields of `struct libcrun_error_s` that `go_crun.c`
reads. -/
structure ErrVal where
  status : Int
  msg : String
deriving DecidableEq, Repr

/-- Modelled from the spec: `libcrun_make_error` lives in the external libcrun
engine, not in this repository's sources.  Per the spec's ErrorValue model it
records the system error code and message into the out-error and returns a
negative result code (libcrun returns `-status - 1`, negative even for
status 0). -/
def libcrun_make_error (status : Int) (msg : String) : Int × ErrVal :=
  (-status - 1, ⟨status, msg⟩)

/-- Observable result of `go_crun_err_to_cstr`: the returned C string (`none`
models returning NULL), the final value written through the `status`
out-pointer (`none` when that pointer is NULL and hence never written), and
how many times `libcrun_error_release` was called on the error resource. -/
structure ErrToCstrResult where
  ret : Option String
  statusOut : Option Int
  releases : Nat
deriving DecidableEq, Repr

/-- Shallow embedding of `go_crun_err_to_cstr`.  `strerror` is the C
library's description function, kept as a parameter.  `err` models the double
pointer: `none` = the `libcrun_error_t *` itself is NULL, `some none` = it
points at a NULL error, `some (some e)` = a real error.  `statusPtrNull` says
whether the `int *status` out-pointer is NULL.  Allocation (`strdup` /
`asprintf`) is modelled as succeeding. -/
def go_crun_err_to_cstr (strerror : Int → String)
    (err : Option (Option ErrVal)) (statusPtrNull : Bool) : ErrToCstrResult :=
  let st0 : Option Int := if statusPtrNull then none else some 0
  match err with
  | none => ⟨none, st0, 0⟩
  | some none => ⟨none, st0, 0⟩
  | some (some e) =>
    let st : Option Int := if statusPtrNull then none else some e.status
    let p : String :=
      if e.status = 0 then e.msg else e.msg ++ ": " ++ strerror e.status
    ⟨some p, st, 1⟩

/-- **C5** For every ErrorValue given to the error marshaler: an empty/absent
value yields no string and status 0 with no release; a value with no system
error code yields the message verbatim; otherwise the string is
`"<message>: <system error description>"`; in both non-empty cases the status
out-pointer receives the value's code and the error resource is released
exactly once. -/
theorem err_to_cstr_spec (strerror : Int → String) (err : Option (Option ErrVal)) :
    ((err = none ∨ err = some none) →
      go_crun_err_to_cstr strerror err false = ⟨none, some 0, 0⟩) ∧
    (∀ e : ErrVal, err = some (some e) →
      (e.status = 0 →
        go_crun_err_to_cstr strerror err false = ⟨some e.msg, some 0, 1⟩) ∧
      (e.status ≠ 0 →
        go_crun_err_to_cstr strerror err false =
          ⟨some (e.msg ++ ": " ++ strerror e.status), some e.status, 1⟩)) := by
  constructor
  · rintro (rfl | rfl) <;> rfl
  · rintro e rfl
    constructor
    · intro h0
      simp [go_crun_err_to_cstr, h0]
    · intro hne
      simp [go_crun_err_to_cstr, hne]

/-- Witness for C5 at concrete inputs: an error with code 5 and one with
code 0. -/
theorem err_to_cstr_spec_witness :
    go_crun_err_to_cstr (fun _ => "input-output error") (some (some ⟨5, "open failed"⟩)) false =
      ⟨some "open failed: input-output error", some 5, 1⟩ ∧
    go_crun_err_to_cstr (fun _ => "input-output error") (some (some ⟨0, "parse failed"⟩)) false =
      ⟨some "parse failed", some 0, 1⟩ ∧
    go_crun_err_to_cstr (fun _ => "input-output error") none false = ⟨none, some 0, 0⟩ := by
  refine ⟨?_, ?_, ?_⟩
  · exact ((err_to_cstr_spec (fun _ => "input-output error")
      (some (some ⟨5, "open failed"⟩))).2 ⟨5, "open failed"⟩ rfl).2 (by decide)
  · exact ((err_to_cstr_spec (fun _ => "input-output error")
      (some (some ⟨0, "parse failed"⟩))).2 ⟨0, "parse failed"⟩ rfl).1 rfl
  · exact (err_to_cstr_spec (fun _ => "input-output error") none).1 (Or.inl rfl)

/-- **C10** The error marshaler tolerates a NULL status out-pointer: the
returned string is the same as with a non-null pointer, and nothing is ever
written through the NULL pointer. -/
theorem err_to_cstr_null_status (strerror : Int → String)
    (err : Option (Option ErrVal)) :
    (go_crun_err_to_cstr strerror err true).ret =
      (go_crun_err_to_cstr strerror err false).ret ∧
    (go_crun_err_to_cstr strerror err true).statusOut = none ∧
    (go_crun_err_to_cstr strerror err true).releases =
      (go_crun_err_to_cstr strerror err false).releases := by
  rcases err with _ | _ | e <;> simp [go_crun_err_to_cstr]

/-! ## Wire log relay (`log_write_to_pipe`, go_crun.c lines 34-49)

Bytes are modelled as `Nat` values `< 256`.  The writer serializes a frame as
`errno (int32) | verbosity (int32) | msg_len (uint32) | message bytes` in
little-endian (x86-64 native) byte order; the message is a C string, so its
length is `strlen` (bytes before the first NUL) and a NUL byte can never be
part of it. -/

/-- Little-endian 4-byte serialization of a 32-bit value. -/
def encode32 (n : Nat) : List Nat :=
  [n % 256, n / 256 % 256, n / 256 / 256 % 256, n / 256 / 256 / 256 % 256]

/-- Reassemble a 32-bit value from 4 little-endian bytes. -/
def decode32 (b0 b1 b2 b3 : Nat) : Nat :=
  b0 + 256 * (b1 + 256 * (b2 + 256 * b3))

/-- Two's-complement representation of an `int32` as an unsigned 32-bit value
(the bit pattern the C `write` emits). -/
def toUnsigned32 (i : Int) : Nat := (i % (4294967296 : Int)).toNat

/-- Read an unsigned 32-bit value back as a signed `int32`. -/
def toSigned32 (n : Nat) : Int :=
  if n < 2147483648 then (n : Int) else (n : Int) - 4294967296

/-- C `strlen` on a byte list: the number of bytes before the first NUL. -/
def strlen (msg : List Nat) : Nat := (msg.takeWhile (· ≠ 0)).length

/-- A structured log record as carried by the relay. -/
structure LogRecord where
  errorCode : Int
  verbosity : Int
  message : List Nat
deriving DecidableEq, Repr

/-- Shallow embedding of `log_write_to_pipe`: the byte sequence the handler
writes to the log fd for one record (writes are best effort; the bytes below
are what the four `write` calls emit). -/
def log_write_to_pipe (errno_ : Int) (msg : List Nat) (verbosity : Int) :
    List Nat :=
  let e := encode32 (toUnsigned32 errno_)
  let v := encode32 (toUnsigned32 verbosity)
  let len := strlen msg
  e ++ v ++ encode32 len ++ msg.take len

/-- Modelled from the spec: the relay reader (the Go-side decoder, not part of
the C sources) parses one frame as `errorCode (int32) | verbosity (int32) |
messageLength (uint32) | message bytes`, framing derived entirely from the
fixed 12-byte header plus the declared length; a short stream yields no
record. -/
def decodeLogRecord (s : List Nat) : Option (LogRecord × List Nat) :=
  match s with
  | b0 :: b1 :: b2 :: b3 :: c0 :: c1 :: c2 :: c3 :: d0 :: d1 :: d2 :: d3 :: rest =>
    let len := decode32 d0 d1 d2 d3
    if rest.length < len then none
    else some (⟨toSigned32 (decode32 b0 b1 b2 b3),
               toSigned32 (decode32 c0 c1 c2 c3), rest.take len⟩, rest.drop len)
  | _ => none

theorem decode32_encode32 (n : Nat) (hn : n < 4294967296) :
    decode32 (n % 256) (n / 256 % 256) (n / 256 / 256 % 256)
      (n / 256 / 256 / 256 % 256) = n := by
  unfold decode32
  omega

theorem toSigned32_toUnsigned32 (i : Int) (h1 : -2147483648 ≤ i)
    (h2 : i < 2147483648) : toSigned32 (toUnsigned32 i) = i := by
  unfold toSigned32 toUnsigned32
  omega

theorem toUnsigned32_lt (i : Int) : toUnsigned32 i < 4294967296 := by
  unfold toUnsigned32
  omega

theorem strlen_of_no_nul (msg : List Nat) (h : ∀ b ∈ msg, b ≠ 0) :
    strlen msg = msg.length := by
  unfold strlen
  rw [List.takeWhile_eq_self_iff.mpr]
  intro a ha
  simpa using h a ha

/-- **C3** Round trip of the wire log protocol: serializing a LogRecord with
`log_write_to_pipe` and decoding the resulting frame from the relay stream
yields byte-identical errorCode, verbosity and message, and consumes exactly
the frame, for arbitrary message content (any non-NUL bytes, including the
empty message) and any in-range int32 codes. -/
theorem log_relay_roundtrip (r : LogRecord) (rest : List Nat)
    (hmsg : ∀ b ∈ r.message, b ≠ 0)
    (he1 : -2147483648 ≤ r.errorCode) (he2 : r.errorCode < 2147483648)
    (hv1 : -2147483648 ≤ r.verbosity) (hv2 : r.verbosity < 2147483648)
    (hlen : r.message.length < 4294967296) :
    decodeLogRecord (log_write_to_pipe r.errorCode r.message r.verbosity ++ rest) =
      some (r, rest) := by
  obtain ⟨e, v, msg⟩ := r
  simp only at hmsg he1 he2 hv1 hv2 hlen
  have hsl : strlen msg = msg.length := strlen_of_no_nul msg hmsg
  simp only [log_write_to_pipe, encode32, decodeLogRecord, hsl, List.take_length,
    List.cons_append, List.nil_append]
  rw [decode32_encode32 _ (toUnsigned32_lt e), decode32_encode32 _ (toUnsigned32_lt v),
    decode32_encode32 _ hlen, toSigned32_toUnsigned32 e he1 he2,
    toSigned32_toUnsigned32 v hv1 hv2]
  simp

/-- Witness for C3: a record with a negative error code, a message containing
a non-text byte (0xFF), decoded exactly, with trailing stream preserved. -/
theorem log_relay_roundtrip_witness :
    decodeLogRecord (log_write_to_pipe (-2) [72, 255, 105] 7 ++ [9, 9]) =
      some (⟨-2, 7, [72, 255, 105]⟩, [9, 9]) ∧
    decodeLogRecord (log_write_to_pipe 0 [] 0 ++ []) = some (⟨0, 0, []⟩, []) := by
  constructor
  · exact log_relay_roundtrip ⟨-2, 7, [72, 255, 105]⟩ [9, 9] (by decide)
      (by decide) (by decide) (by decide) (by decide) (by decide)
  · exact log_relay_roundtrip ⟨0, 0, []⟩ [] (by decide)
      (by decide) (by decide) (by decide) (by decide) (by decide)

/-! ## Exit-status resolver (`go_crun_wait`, go_crun.c lines 340-362)

`waitpid` outcomes are supplied as a list of attempts (the kernel's answers to
the successive calls of the retry loop).  Wait-status decoding uses the glibc
definitions of the `W*` macros. -/

/-- One outcome of a `waitpid` call: `.fail e` models a return of -1 with
`errno = e`; `.ok s` models success with raw wait status `s`. -/
inductive WaitAttempt where
  | fail (errno_ : Nat)
  | ok (status : Nat)
deriving DecidableEq, Repr

/-- Linux `EINTR`. -/
def EINTR : Nat := 4

/-- glibc `WTERMSIG`: `status & 0x7f`. -/
def WTERMSIG (s : Nat) : Nat := s % 128

/-- glibc `WEXITSTATUS`: `(status & 0xff00) >> 8`. -/
def WEXITSTATUS (s : Nat) : Nat := s / 256 % 256

/-- glibc `WIFEXITED`: `WTERMSIG(status) == 0`. -/
def WIFEXITED (s : Nat) : Bool := WTERMSIG s = 0

/-- glibc `WIFSIGNALED`: `((signed char) (((status & 0x7f) + 1) >> 1)) > 0`
(the cast to `signed char` happens before the arithmetic shift). -/
def WIFSIGNALED (s : Nat) : Bool :=
  let sc : Int :=
    if s % 128 + 1 < 128 then ((s % 128 + 1 : Nat) : Int)
    else (s % 128 + 1 : Int) - 256
  0 < sc / 2

/-- The `do { waitpid } while (ret < 0 && errno == EINTR)` loop: skip
interrupted attempts, stop at the first success or non-EINTR failure.
`none` models a loop that never terminates (not reachable for a real
child). -/
def waitLoop : List WaitAttempt → Option WaitAttempt
  | [] => none
  | .fail e :: rest => if e = EINTR then waitLoop rest else some (.fail e)
  | .ok s :: _ => some (.ok s)

/-- Wait-status decoding of `go_crun_wait`: exit code for normal termination,
`128 + signal` for signal death, `-1` otherwise. -/
def decodeStatus (s : Nat) : Int :=
  if WIFEXITED s then (WEXITSTATUS s : Int)
  else if WIFSIGNALED s then 128 + (WTERMSIG s : Int)
  else -1

/-- Shallow embedding of `go_crun_wait`: given the sequence of `waitpid`
outcomes, returns `(rc, exit_code written, error set)`; `none` if the retry
loop never terminates. -/
def go_crun_wait (attempts : List WaitAttempt) :
    Option (Int × Option Int × Option ErrVal) :=
  match waitLoop attempts with
  | none => none
  | some (.fail e) =>
    let r := libcrun_make_error (e : Int) "waitpid failed"
    some (r.1, none, some r.2)
  | some (.ok s) => some (0, some (decodeStatus s), none)

theorem waitLoop_skips_eintr (pre : List WaitAttempt)
    (hpre : ∀ a ∈ pre, a = WaitAttempt.fail EINTR) (rest : List WaitAttempt) :
    waitLoop (pre ++ rest) = waitLoop rest := by
  induction pre with
  | nil => rfl
  | cons a pre ih =>
    have ha := hpre a (List.mem_cons_self a pre)
    subst ha
    simp only [List.cons_append, waitLoop, if_pos rfl]
    exact ih fun a h => hpre a (List.mem_cons_of_mem _ h)

/-- **C4** The exit-status resolver retries interrupted waits without
reporting an error: after any number of EINTR failures, a successful wait
yields result 0 and the decoded status — normal termination gives the
declared exit code (a value in 0..255, `exit(7)` giving 7), signal death
gives `128 + signal` (signal 9 giving 137), any other shape gives `-1` —
while a non-EINTR wait failure is reported as an error carrying that errno
with a negative result and no exit code. -/
theorem go_crun_wait_spec (pre : List WaitAttempt)
    (hpre : ∀ a ∈ pre, a = WaitAttempt.fail EINTR) :
    (∀ s, go_crun_wait (pre ++ [WaitAttempt.ok s]) =
        some (0, some (decodeStatus s), none)) ∧
    (∀ s, WIFEXITED s = true →
        decodeStatus s = (WEXITSTATUS s : Int) ∧
        0 ≤ decodeStatus s ∧ decodeStatus s ≤ 255) ∧
    (∀ s, WIFEXITED s = false → WIFSIGNALED s = true →
        decodeStatus s = 128 + (WTERMSIG s : Int)) ∧
    (∀ s, WIFEXITED s = false → WIFSIGNALED s = false → decodeStatus s = -1) ∧
    (∀ e, e ≠ EINTR → go_crun_wait (pre ++ [WaitAttempt.fail e]) =
        some (-(e : Int) - 1, none, some ⟨(e : Int), "waitpid failed"⟩)) := by
  refine ⟨?_, ?_, ?_, ?_, ?_⟩
  · intro s
    unfold go_crun_wait
    rw [waitLoop_skips_eintr pre hpre]
    rfl
  · intro s hex
    refine ⟨by simp [decodeStatus, hex], ?_, ?_⟩
    · simp only [decodeStatus, hex, if_pos]
      positivity
    · simp only [decodeStatus, hex, if_pos]
      have : WEXITSTATUS s ≤ 255 := by
        unfold WEXITSTATUS
        omega
      exact_mod_cast this
  · intro s hex hsig
    simp [decodeStatus, hex, hsig]
  · intro s hex hsig
    simp [decodeStatus, hex, hsig]
  · intro e he
    unfold go_crun_wait
    rw [waitLoop_skips_eintr pre hpre]
    simp [waitLoop, he, libcrun_make_error]

/-- Witness for C4 at concrete inputs: after two EINTR interruptions, a child
that called `exit(7)` (raw status `0x700`) resolves to 7; a child killed by
signal 9 (raw status 9) resolves to 137; a stopped-shape status (`0x137f`)
resolves to -1; a wait failing with `ECHILD` (10) reports an error. -/
theorem go_crun_wait_spec_witness :
    go_crun_wait [WaitAttempt.fail 4, WaitAttempt.fail 4, WaitAttempt.ok 1792] =
      some (0, some 7, none) ∧
    go_crun_wait [WaitAttempt.fail 4, WaitAttempt.ok 9] = some (0, some 137, none) ∧
    decodeStatus 4991 = -1 ∧
    go_crun_wait [WaitAttempt.fail 4, WaitAttempt.fail 10] =
      some (-11, none, some ⟨10, "waitpid failed"⟩) := by
  have h1 := (go_crun_wait_spec [WaitAttempt.fail 4, WaitAttempt.fail 4]
    (by decide)).1 1792
  have h2 := (go_crun_wait_spec [WaitAttempt.fail 4] (by decide)).1 9
  have h3 := (go_crun_wait_spec [] (by decide)).2.2.2.1 4991 (by decide) (by decide)
  have h4 := (go_crun_wait_spec [WaitAttempt.fail 4] (by decide)).2.2.2.2 10
    (by decide)
  refine ⟨?_, ?_, h3, ?_⟩
  · rw [show [WaitAttempt.fail 4, WaitAttempt.fail 4, WaitAttempt.ok 1792] =
      [WaitAttempt.fail 4, WaitAttempt.fail 4] ++ [WaitAttempt.ok 1792] from rfl, h1]
    norm_num [decodeStatus, WIFEXITED, WTERMSIG, WEXITSTATUS]
  · rw [show [WaitAttempt.fail 4, WaitAttempt.ok 9] =
      [WaitAttempt.fail 4] ++ [WaitAttempt.ok 9] from rfl, h2]
    norm_num [decodeStatus, WIFEXITED, WIFSIGNALED, WTERMSIG]
  · rw [show [WaitAttempt.fail 4, WaitAttempt.fail 10] =
      [WaitAttempt.fail 4] ++ [WaitAttempt.fail 10] from rfl, h4]
    norm_num

/-! ## Process-wide log-callback slot (go_crun.c lines 12-32)

The mutable process state is the pair of the global `go_log_handle` and the
output handler installed through `crun_set_output_handler`. -/

/-- The output handler installed in libcrun's process-wide slot.  `nullSink`
models installing `NULL` (which would crash the next log call and is exactly
what the code avoids). -/
inductive LogSink where
  | nullSink
  | goCallback
  | stderrSink
  | pipeSink (fd : Int)
deriving DecidableEq, Repr

/-- The process-wide logging state: the Go callback handle (0 = none) and the
installed sink. -/
structure LogState where
  go_log_handle : Nat
  sink : LogSink
deriving DecidableEq, Repr

/-- Shallow embedding of `go_crun_set_log_handler`: store the handle, install
the Go-callback-routing handler. -/
def go_crun_set_log_handler (_st : LogState) (handle : Nat) : LogState :=
  { go_log_handle := handle, sink := LogSink.goCallback }

/-- Shallow embedding of `go_crun_reset_log_handler`: clear the handle,
install `log_write_to_stderr` (deliberately not NULL). -/
def go_crun_reset_log_handler (_st : LogState) : LogState :=
  { go_log_handle := 0, sink := LogSink.stderrSink }

/-- A register or reset call on the slot. -/
inductive LogOp where
  | set (handle : Nat)
  | reset
deriving DecidableEq, Repr

/-- Apply a sequence of register/reset calls to the logging state. -/
def applyLogOps (st : LogState) : List LogOp → LogState
  | [] => st
  | LogOp.set h :: rest => applyLogOps (go_crun_set_log_handler st h) rest
  | LogOp.reset :: rest => applyLogOps (go_crun_reset_log_handler st) rest

theorem applyLogOps_append (st : LogState) (l1 l2 : List LogOp) :
    applyLogOps st (l1 ++ l2) = applyLogOps (applyLogOps st l1) l2 := by
  induction l1 generalizing st with
  | nil => rfl
  | cons a l1 ih =>
    cases a <;> simp only [List.cons_append, applyLogOps] <;> exact ih _

/-- **C8** After any sequence of register and reset operations the process
keeps a usable log sink: a register stores the new handle and installs the
callback-routing sink, a reset clears the handle to zero and installs the
default stderr sink, and any nonempty sequence leaves a sink that is never
the null sink. -/
theorem log_handler_never_null (st : LogState) (ops : List LogOp) :
    (∀ h, applyLogOps st (ops ++ [LogOp.set h]) = ⟨h, LogSink.goCallback⟩) ∧
    (applyLogOps st (ops ++ [LogOp.reset]) = ⟨0, LogSink.stderrSink⟩) ∧
    (ops ≠ [] → (applyLogOps st ops).sink ≠ LogSink.nullSink) := by
  refine ⟨?_, ?_, ?_⟩
  · intro h
    rw [applyLogOps_append]
    rfl
  · rw [applyLogOps_append]
    rfl
  · intro hne
    rcases List.eq_nil_or_concat ops with rfl | ⟨l, a, rfl⟩
    · exact absurd rfl hne
    · rw [List.concat_eq_append, applyLogOps_append]
      cases a <;> simp [applyLogOps, go_crun_set_log_handler, go_crun_reset_log_handler]

/-- Witness for C8: a concrete register/reset/register sequence starting from
a state holding a null sink. -/
theorem log_handler_never_null_witness :
    applyLogOps ⟨0, LogSink.nullSink⟩
        [LogOp.set 5, LogOp.reset, LogOp.set 9, LogOp.reset] =
      ⟨0, LogSink.stderrSink⟩ ∧
    (applyLogOps ⟨0, LogSink.nullSink⟩ [LogOp.set 5, LogOp.reset]).sink ≠
      LogSink.nullSink := by
  constructor
  · exact (log_handler_never_null ⟨0, LogSink.nullSink⟩
      [LogOp.set 5, LogOp.reset, LogOp.set 9]).2.1
  · exact (log_handler_never_null ⟨0, LogSink.nullSink⟩
      [LogOp.set 5, LogOp.reset]).2.2 (by decide)

/-! ## Launch supervisor (`go_crun_run_with_pipes`, go_crun.c lines 220-338)

The child branch is modelled as the sequence of observable actions it
performs, driven by the caller-supplied fds and by oracles for the outcomes
of the system calls (`dup2`, `open("/dev/null")`) and of the engine call
`libcrun_container_run`.  The parent branch is a function of the `read` on
the sync pipe. -/

/-- The caller-supplied descriptors of one launch (negative = not supplied). -/
structure RunFds where
  stdin_fd : Int
  stdout_fd : Int
  stderr_fd : Int
  log_fd : Int
deriving DecidableEq, Repr

/-- Kernel-decided outcomes of the child's system calls: for each `dup2` of a
caller-supplied fd, `none` = success and `some e` = failure with
`errno = e`; `openNull` is the return value of `open("/dev/null", O_RDONLY)`
(negative = failure); `dupNull` is the outcome of the `dup2` of the null fd
(the code never inspects it). -/
structure ChildSys where
  dupStdin : Option Nat
  dupStdout : Option Nat
  dupStderr : Option Nat
  openNull : Int
  dupNull : Option Nat
deriving DecidableEq, Repr

/-- Result of the engine call `libcrun_container_run` in the child: the
return code and whether it set `child_err`. -/
structure EngineOutcome where
  rc : Int
  errSet : Bool
deriving DecidableEq, Repr

/-- An observable action of the forked child. -/
inductive ChildEvent where
  | installSink (s : LogSink)
  | dup2 (src : Int) (dst : Nat)
  | closeFd (fd : Int)
  | openNullRO
  | writeSync (v : Int)
  | releaseEngineErr
  | runEngine
  | exitNow (status : Nat)
deriving DecidableEq, Repr

/-- The stdin redirection step of the child (go_crun.c lines 260-275): with a
supplied fd, a failed `dup2` writes the errno to the sync pipe and exits with
status 1 (second component `true` = child terminated); without one, the child
opens `/dev/null` and, when that open succeeded, dups it onto stdin — neither
that open nor that dup is error-checked. -/
def stdinStep (stdin_fd : Int) (sys : ChildSys) : List ChildEvent × Bool :=
  if stdin_fd ≥ 0 then
    match sys.dupStdin with
    | some e => ([ChildEvent.dup2 stdin_fd 0, ChildEvent.writeSync (e : Int),
                  ChildEvent.exitNow 1], true)
    | none => ([ChildEvent.dup2 stdin_fd 0, ChildEvent.closeFd stdin_fd], false)
  else
    if sys.openNull ≥ 0 then
      ([ChildEvent.openNullRO, ChildEvent.dup2 sys.openNull 0,
        ChildEvent.closeFd sys.openNull], false)
    else ([ChildEvent.openNullRO], false)

/-- A stdout/stderr redirection step (go_crun.c lines 277-295): only acts on
a supplied fd; a failed `dup2` writes the errno and exits with status 1. -/
def redirectStep (fd : Int) (dupRes : Option Nat) (dst : Nat) :
    List ChildEvent × Bool :=
  if fd ≥ 0 then
    match dupRes with
    | some e => ([ChildEvent.dup2 fd dst, ChildEvent.writeSync (e : Int),
                  ChildEvent.exitNow 1], true)
    | none => ([ChildEvent.dup2 fd dst, ChildEvent.closeFd fd], false)
  else ([], false)

/-- The complete child branch (go_crun.c lines 245-310): install the log sink
(pipe writer when a log fd is supplied, stderr otherwise — never the Go
callback), redirect stdin, stdout, stderr in order, write the `0` handshake,
run the engine, release its error if set, and exit with 1 on negative engine
result or the engine's result as-is. -/
def childBranch (fds : RunFds) (sys : ChildSys) (eng : EngineOutcome) :
    List ChildEvent :=
  let sink : LogSink :=
    if fds.log_fd ≥ 0 then LogSink.pipeSink fds.log_fd else LogSink.stderrSink
  let s0 := stdinStep fds.stdin_fd sys
  if s0.2 then ChildEvent.installSink sink :: s0.1
  else
    let s1 := redirectStep fds.stdout_fd sys.dupStdout 1
    if s1.2 then ChildEvent.installSink sink :: (s0.1 ++ s1.1)
    else
      let s2 := redirectStep fds.stderr_fd sys.dupStderr 2
      if s2.2 then ChildEvent.installSink sink :: (s0.1 ++ s1.1 ++ s2.1)
      else
        ChildEvent.installSink sink :: (s0.1 ++ s1.1 ++ s2.1 ++
          [ChildEvent.writeSync 0, ChildEvent.runEngine] ++
          (if eng.errSet then [ChildEvent.releaseEngineErr] else []) ++
          [ChildEvent.exitNow (if eng.rc < 0 then 1 else eng.rc.toNat)])

/-- The 4-byte values the child wrote on the sync pipe, in order. -/
def syncWrites (evs : List ChildEvent) : List Int :=
  evs.filterMap fun e =>
    match e with
    | ChildEvent.writeSync v => some v
    | _ => none

/-- The `_exit` statuses occurring in an event list, in order. -/
def exitList (evs : List ChildEvent) : List Nat :=
  evs.filterMap fun e =>
    match e with
    | ChildEvent.exitNow s => some s
    | _ => none

/-- The child's `_exit` status (the first — and only — exit event). -/
def childExit (evs : List ChildEvent) : Option Nat :=
  (exitList evs).head?

/-- How many times the child released the engine's error value. -/
def engineErrReleases (evs : List ChildEvent) : Nat :=
  (evs.filter (· = ChildEvent.releaseEngineErr)).length

/-- Result of the parent branch: the return code, the pid stored through
`out_pid` (none = never written), the error produced, and whether the parent
reaped the child with `waitpid`. -/
structure ParentResult where
  rc : Int
  out_pid : Option Int
  err : Option ErrVal
  reaped : Bool
deriving DecidableEq, Repr

/-- The parent branch after the fork (go_crun.c lines 312-337): `n` is what
`read` returned for the 4-byte handshake and `child_errno` the value read.
A short read reaps the child and reports a generic failure; a nonzero value
reaps the child and reports a setup failure carrying that code; zero returns
the pid as a live handle. -/
def parentAfterFork (pid : Int) (n : Int) (child_errno : Int) : ParentResult :=
  if n ≠ 4 then
    let r := libcrun_make_error 0 "child process failed unexpectedly"
    ⟨r.1, none, some r.2, true⟩
  else if child_errno ≠ 0 then
    let r := libcrun_make_error child_errno "child process setup failed"
    ⟨r.1, none, some r.2, true⟩
  else ⟨0, some pid, none, false⟩

theorem syncWrites_append (a b : List ChildEvent) :
    syncWrites (a ++ b) = syncWrites a ++ syncWrites b := by
  simp [syncWrites]

theorem exitList_append (a b : List ChildEvent) :
    exitList (a ++ b) = exitList a ++ exitList b := by
  simp [exitList]

theorem syncWrites_installSink_cons (s : LogSink) (evs : List ChildEvent) :
    syncWrites (ChildEvent.installSink s :: evs) = syncWrites evs := by
  simp [syncWrites]

theorem exitList_installSink_cons (s : LogSink) (evs : List ChildEvent) :
    exitList (ChildEvent.installSink s :: evs) = exitList evs := by
  simp [exitList]

theorem syncWrites_of_no_writes (evs : List ChildEvent)
    (h : ∀ v, ChildEvent.writeSync v ∉ evs) : syncWrites evs = [] := by
  unfold syncWrites
  rw [List.filterMap_eq_nil_iff]
  intro a ha
  cases a <;> simp_all

theorem exitList_of_no_exits (evs : List ChildEvent)
    (h : ∀ s, ChildEvent.exitNow s ∉ evs) : exitList evs = [] := by
  unfold exitList
  rw [List.filterMap_eq_nil_iff]
  intro a ha
  cases a <;> simp_all

theorem stdinStep_ok_no_sync (fds_stdin : Int) (sys : ChildSys)
    (h : fds_stdin < 0 ∨ sys.dupStdin = none) :
    (stdinStep fds_stdin sys).2 = false ∧
    syncWrites (stdinStep fds_stdin sys).1 = [] ∧
    exitList (stdinStep fds_stdin sys).1 = [] ∧
    engineErrReleases (stdinStep fds_stdin sys).1 = 0 := by
  unfold stdinStep
  rcases h with h | h
  · rw [if_neg (by omega)]
    split <;> simp [syncWrites, exitList, engineErrReleases]
  · split
    · rw [h]
      simp [syncWrites, exitList, engineErrReleases]
    · split <;> simp [syncWrites, exitList, engineErrReleases]

theorem redirectStep_ok_no_sync (fd : Int) (dupRes : Option Nat) (dst : Nat)
    (h : fd < 0 ∨ dupRes = none) :
    (redirectStep fd dupRes dst).2 = false ∧
    syncWrites (redirectStep fd dupRes dst).1 = [] ∧
    exitList (redirectStep fd dupRes dst).1 = [] ∧
    engineErrReleases (redirectStep fd dupRes dst).1 = 0 := by
  unfold redirectStep
  rcases h with h | h
  · rw [if_neg (by omega)]
    simp [syncWrites, exitList, engineErrReleases]
  · rw [h]
    split <;> simp [syncWrites, exitList, engineErrReleases]

/-- The failing-dup2 event tail: the dup call, the errno handshake write and
the `_exit(1)`. -/
theorem dupFailTail_obs (src : Int) (dst : Nat) (e : Nat) :
    syncWrites [ChildEvent.dup2 src dst, ChildEvent.writeSync (e : Int),
      ChildEvent.exitNow 1] = [(e : Int)] ∧
    exitList [ChildEvent.dup2 src dst, ChildEvent.writeSync (e : Int),
      ChildEvent.exitNow 1] = [1] := by
  simp [syncWrites, exitList]

/-- **C1** A failed `dup2` of a caller-supplied stdin, stdout or stderr
descriptor makes the child write exactly that errno as the handshake value
and exit with status 1, and the parent, reading that nonzero value, reaps the
child, reports a "child process setup failed" error carrying the same code,
returns a negative result and never stores a pid. -/
theorem run_with_pipes_dup_failure (fds : RunFds) (sys : ChildSys)
    (eng : EngineOutcome) (pid : Int) (e : Nat) :
    (fds.stdin_fd ≥ 0 → sys.dupStdin = some e →
      syncWrites (childBranch fds sys eng) = [(e : Int)] ∧
      childExit (childBranch fds sys eng) = some 1) ∧
    ((fds.stdin_fd < 0 ∨ sys.dupStdin = none) → fds.stdout_fd ≥ 0 →
      sys.dupStdout = some e →
      syncWrites (childBranch fds sys eng) = [(e : Int)] ∧
      childExit (childBranch fds sys eng) = some 1) ∧
    ((fds.stdin_fd < 0 ∨ sys.dupStdin = none) →
      (fds.stdout_fd < 0 ∨ sys.dupStdout = none) → fds.stderr_fd ≥ 0 →
      sys.dupStderr = some e →
      syncWrites (childBranch fds sys eng) = [(e : Int)] ∧
      childExit (childBranch fds sys eng) = some 1) ∧
    (0 < e → parentAfterFork pid 4 (e : Int) =
      ⟨-(e : Int) - 1, none, some ⟨(e : Int), "child process setup failed"⟩, true⟩ ∧
      -(e : Int) - 1 < 0) := by
  refine ⟨?_, ?_, ?_, ?_⟩
  · intro hge hdup
    constructor
    · simp [childBranch, stdinStep, hge, hdup, syncWrites_installSink_cons,
        (dupFailTail_obs fds.stdin_fd 0 e).1]
    · simp [childBranch, stdinStep, hge, hdup, childExit, exitList_installSink_cons,
        (dupFailTail_obs fds.stdin_fd 0 e).2]
  · intro h0 hge hdup
    obtain ⟨hb0, hw0, he0, -⟩ := stdinStep_ok_no_sync fds.stdin_fd sys h0
    constructor
    · simp [childBranch, redirectStep, hge, hdup, hb0, syncWrites_installSink_cons,
        syncWrites_append, hw0, (dupFailTail_obs fds.stdout_fd 1 e).1]
    · simp [childBranch, redirectStep, hge, hdup, hb0, childExit,
        exitList_installSink_cons, exitList_append, he0,
        (dupFailTail_obs fds.stdout_fd 1 e).2]
  · intro h0 h1 hge hdup
    obtain ⟨hb0, hw0, he0, -⟩ := stdinStep_ok_no_sync fds.stdin_fd sys h0
    obtain ⟨hb1, hw1, he1, -⟩ := redirectStep_ok_no_sync fds.stdout_fd sys.dupStdout 1 h1
    have hs2 : redirectStep fds.stderr_fd sys.dupStderr 2 =
        ([ChildEvent.dup2 fds.stderr_fd 2, ChildEvent.writeSync (e : Int),
          ChildEvent.exitNow 1], true) := by
      simp [redirectStep, hge, hdup]
    constructor
    · simp [childBranch, hs2, hb0, hb1, syncWrites_installSink_cons,
        syncWrites_append, hw0, hw1, (dupFailTail_obs fds.stderr_fd 2 e).1]
    · simp [childBranch, hs2, hb0, hb1, childExit,
        exitList_installSink_cons, exitList_append, he0, he1,
        (dupFailTail_obs fds.stderr_fd 2 e).2]
  · intro hpos
    have hne : (e : Int) ≠ 0 := by exact_mod_cast hpos.ne'
    refine ⟨?_, by omega⟩
    simp [parentAfterFork, libcrun_make_error, hne]
/-- Witness for C1 at a concrete input: stdin fd 3 supplied, its `dup2`
failing with errno 9. -/
theorem run_with_pipes_dup_failure_witness :
    syncWrites (childBranch ⟨3, 4, 5, -1⟩ ⟨some 9, none, none, -1, none⟩ ⟨0, false⟩) =
      [9] ∧
    childExit (childBranch ⟨3, 4, 5, -1⟩ ⟨some 9, none, none, -1, none⟩ ⟨0, false⟩) =
      some 1 ∧
    parentAfterFork 42 4 9 =
      ⟨-10, none, some ⟨9, "child process setup failed"⟩, true⟩ := by
  obtain ⟨h1, -, -, h4⟩ := run_with_pipes_dup_failure ⟨3, 4, 5, -1⟩
    ⟨some 9, none, none, -1, none⟩ ⟨0, false⟩ 42 9
  obtain ⟨hw, hx⟩ := h1 (by norm_num) rfl
  have hp := (h4 (by norm_num)).1
  norm_num at hw hx hp
  exact ⟨hw, hx, hp⟩

/-- **C2** If the parent's blocking read on the sync pipe returns fewer than
4 bytes, the parent reaps the child, reports the generic "child process
failed unexpectedly" error with a negative result and never stores a pid;
if the full 4-byte value read is zero, the launch stores the child pid and
returns 0. -/
theorem run_with_pipes_short_read (pid : Int) (n v : Int) (hn : n < 4) :
    parentAfterFork pid n v =
      ⟨-1, none, some ⟨0, "child process failed unexpectedly"⟩, true⟩ ∧
    (parentAfterFork pid n v).rc < 0 ∧
    parentAfterFork pid 4 0 = ⟨0, some pid, none, false⟩ := by
  have hne : n ≠ 4 := by omega
  have h1 : parentAfterFork pid n v =
      ⟨-1, none, some ⟨0, "child process failed unexpectedly"⟩, true⟩ := by
    simp [parentAfterFork, libcrun_make_error, hne]
  refine ⟨h1, by rw [h1]; norm_num, by simp [parentAfterFork]⟩

/-- Witness for C2: a read of 0 bytes, and a successful handshake. -/
theorem run_with_pipes_short_read_witness :
    parentAfterFork 42 0 0 =
      ⟨-1, none, some ⟨0, "child process failed unexpectedly"⟩, true⟩ ∧
    parentAfterFork 42 4 0 = ⟨0, some 42, none, false⟩ := by
  obtain ⟨h1, -, h3⟩ := run_with_pipes_short_read 42 0 0 (by norm_num)
  exact ⟨h1, h3⟩

theorem syncWrites_engine_tail (l : List ChildEvent) (st : Nat) :
    syncWrites ([ChildEvent.writeSync 0, ChildEvent.runEngine] ++ l ++
        [ChildEvent.exitNow st]) =
      0 :: syncWrites l ∧
    exitList ([ChildEvent.writeSync 0, ChildEvent.runEngine] ++ l ++
        [ChildEvent.exitNow st]) =
      exitList l ++ [st] ∧
    engineErrReleases ([ChildEvent.writeSync 0, ChildEvent.runEngine] ++ l ++
        [ChildEvent.exitNow st]) = engineErrReleases l := by
  simp [syncWrites, exitList, engineErrReleases]

theorem releaseList_obs (errSet : Bool) :
    syncWrites (if errSet then [ChildEvent.releaseEngineErr] else []) = [] ∧
    exitList (if errSet then [ChildEvent.releaseEngineErr] else []) = [] ∧
    engineErrReleases (if errSet then [ChildEvent.releaseEngineErr] else []) =
      if errSet then 1 else 0 := by
  cases errSet <;> simp [syncWrites, exitList, engineErrReleases]

theorem engineErrReleases_append (a b : List ChildEvent) :
    engineErrReleases (a ++ b) = engineErrReleases a + engineErrReleases b := by
  simp [engineErrReleases]

theorem engineErrReleases_installSink_cons (s : LogSink) (evs : List ChildEvent) :
    engineErrReleases (ChildEvent.installSink s :: evs) = engineErrReleases evs := by
  simp [engineErrReleases]

/-- The child branch when all three redirections succeed: the sink
installation, the redirect events, the zero handshake, the engine run, the
optional error release and the final exit. -/
theorem childBranch_success_shape (fds : RunFds) (sys : ChildSys)
    (eng : EngineOutcome)
    (h0 : fds.stdin_fd < 0 ∨ sys.dupStdin = none)
    (h1 : fds.stdout_fd < 0 ∨ sys.dupStdout = none)
    (h2 : fds.stderr_fd < 0 ∨ sys.dupStderr = none) :
    childBranch fds sys eng =
      ChildEvent.installSink (if fds.log_fd ≥ 0 then LogSink.pipeSink fds.log_fd
        else LogSink.stderrSink) ::
      ((stdinStep fds.stdin_fd sys).1 ++ (redirectStep fds.stdout_fd sys.dupStdout 1).1 ++
        (redirectStep fds.stderr_fd sys.dupStderr 2).1 ++
        [ChildEvent.writeSync 0, ChildEvent.runEngine] ++
        (if eng.errSet then [ChildEvent.releaseEngineErr] else []) ++
        [ChildEvent.exitNow (if eng.rc < 0 then 1 else eng.rc.toNat)]) := by
  obtain ⟨hb0, -, -, -⟩ := stdinStep_ok_no_sync fds.stdin_fd sys h0
  obtain ⟨hb1, -, -, -⟩ := redirectStep_ok_no_sync fds.stdout_fd sys.dupStdout 1 h1
  obtain ⟨hb2, -, -, -⟩ := redirectStep_ok_no_sync fds.stderr_fd sys.dupStderr 2 h2
  simp [childBranch, hb0, hb1, hb2]

/-- **C6** After a successful setup handshake the engine's result becomes the
child's exit status: the handshake write is exactly the zero value, a
negative engine result exits with status 1, a non-negative result is used
as-is, and the engine's error value is released exactly once when set and
never otherwise. -/
theorem child_engine_exit (fds : RunFds) (sys : ChildSys) (eng : EngineOutcome)
    (h0 : fds.stdin_fd < 0 ∨ sys.dupStdin = none)
    (h1 : fds.stdout_fd < 0 ∨ sys.dupStdout = none)
    (h2 : fds.stderr_fd < 0 ∨ sys.dupStderr = none) :
    syncWrites (childBranch fds sys eng) = [0] ∧
    childExit (childBranch fds sys eng) =
      some (if eng.rc < 0 then 1 else eng.rc.toNat) ∧
    (eng.rc < 0 → childExit (childBranch fds sys eng) = some 1) ∧
    (0 ≤ eng.rc → childExit (childBranch fds sys eng) = some eng.rc.toNat) ∧
    engineErrReleases (childBranch fds sys eng) =
      if eng.errSet then 1 else 0 := by
  obtain ⟨-, hw0, he0, hr0⟩ := stdinStep_ok_no_sync fds.stdin_fd sys h0
  obtain ⟨-, hw1, he1, hr1⟩ := redirectStep_ok_no_sync fds.stdout_fd sys.dupStdout 1 h1
  obtain ⟨-, hw2, he2, hr2⟩ := redirectStep_ok_no_sync fds.stderr_fd sys.dupStderr 2 h2
  have hsw : syncWrites (childBranch fds sys eng) = [0] := by
    rw [childBranch_success_shape fds sys eng h0 h1 h2,
      syncWrites_installSink_cons, syncWrites_append, syncWrites_append,
      syncWrites_append, syncWrites_append, syncWrites_append,
      hw0, hw1, hw2, (releaseList_obs eng.errSet).1]
    simp [syncWrites]
  have hex : childExit (childBranch fds sys eng) =
      some (if eng.rc < 0 then 1 else eng.rc.toNat) := by
    rw [childExit, childBranch_success_shape fds sys eng h0 h1 h2,
      exitList_installSink_cons, exitList_append, exitList_append,
      exitList_append, exitList_append, exitList_append,
      he0, he1, he2, (releaseList_obs eng.errSet).2.1]
    simp [exitList]
  have hrel : engineErrReleases (childBranch fds sys eng) =
      if eng.errSet then 1 else 0 := by
    rw [childBranch_success_shape fds sys eng h0 h1 h2,
      engineErrReleases_installSink_cons, engineErrReleases_append,
      engineErrReleases_append, engineErrReleases_append,
      engineErrReleases_append, engineErrReleases_append,
      hr0, hr1, hr2, (releaseList_obs eng.errSet).2.2]
    simp [engineErrReleases]
  refine ⟨hsw, hex, ?_, ?_, hrel⟩
  · intro hneg
    rw [hex, if_pos hneg]
  · intro hpos
    rw [hex, if_neg (by omega)]

/-- Witness for C6: no fds supplied, engine failing with -3 and an error set
(exit 1, one release), and engine returning 7 with no error (exit 7). -/
theorem child_engine_exit_witness :
    syncWrites (childBranch ⟨-1, -1, -1, -1⟩ ⟨none, none, none, 3, none⟩ ⟨-3, true⟩) =
      [0] ∧
    childExit (childBranch ⟨-1, -1, -1, -1⟩ ⟨none, none, none, 3, none⟩ ⟨-3, true⟩) =
      some 1 ∧
    engineErrReleases
      (childBranch ⟨-1, -1, -1, -1⟩ ⟨none, none, none, 3, none⟩ ⟨-3, true⟩) = 1 ∧
    childExit (childBranch ⟨-1, -1, -1, -1⟩ ⟨none, none, none, 3, none⟩ ⟨7, false⟩) =
      some 7 ∧
    engineErrReleases
      (childBranch ⟨-1, -1, -1, -1⟩ ⟨none, none, none, 3, none⟩ ⟨7, false⟩) = 0 := by
  obtain ⟨ha1, -, ha3, -, ha5⟩ := child_engine_exit ⟨-1, -1, -1, -1⟩
    ⟨none, none, none, 3, none⟩ ⟨-3, true⟩ (Or.inl (by norm_num))
    (Or.inl (by norm_num)) (Or.inl (by norm_num))
  obtain ⟨-, -, -, hb4, hb5⟩ := child_engine_exit ⟨-1, -1, -1, -1⟩
    ⟨none, none, none, 3, none⟩ ⟨7, false⟩ (Or.inl (by norm_num))
    (Or.inl (by norm_num)) (Or.inl (by norm_num))
  exact ⟨ha1, ha3 (by norm_num), ha5, hb4 (by norm_num), hb5⟩

/-- Counterexample for C7 as stated: with no stdin supplied, the null device
opened as fd 3 and the `dup2` of that fd onto stdin failing with errno 13,
the child neither writes 13 to the sync pipe nor terminates with a nonzero
status — it writes the 0 handshake and exits with the engine's status 0,
because the code never checks this `dup2`. -/
theorem child_null_stdin_dup_failure_ignored :
    (⟨none, none, none, 3, some 13⟩ : ChildSys).dupNull = some 13 ∧
    syncWrites (childBranch ⟨-1, -1, -1, -1⟩ ⟨none, none, none, 3, some 13⟩
      ⟨0, false⟩) = [0] ∧
    childExit (childBranch ⟨-1, -1, -1, -1⟩ ⟨none, none, none, 3, some 13⟩
      ⟨0, false⟩) = some 0 := by
  refine ⟨rfl, ?_, ?_⟩ <;> rfl

/-- **C7 (amended)** With no stdin descriptor supplied, the child opens the
null device read-only and — when that open succeeded — duplicates it onto
stdin; failures of this null-device duplication are silently ignored (the
events are independent of its outcome and the child continues setup, still
reaching the zero handshake when the other redirections succeed), while a
duplication failure of a caller-supplied stdout descriptor still writes that
errno and exits with status 1. -/
theorem child_null_stdin (fds : RunFds) (sys : ChildSys) (eng : EngineOutcome)
    (hneg : fds.stdin_fd < 0) :
    ChildEvent.openNullRO ∈ childBranch fds sys eng ∧
    (sys.openNull ≥ 0 → ChildEvent.dup2 sys.openNull 0 ∈ childBranch fds sys eng) ∧
    (∀ d, childBranch fds { sys with dupNull := d } eng = childBranch fds sys eng) ∧
    (∀ e : Nat, fds.stdout_fd ≥ 0 → sys.dupStdout = some e →
      syncWrites (childBranch fds sys eng) = [(e : Int)] ∧
      childExit (childBranch fds sys eng) = some 1) ∧
    ((fds.stdout_fd < 0 ∨ sys.dupStdout = none) →
      (fds.stderr_fd < 0 ∨ sys.dupStderr = none) →
      syncWrites (childBranch fds sys eng) = [0]) := by
  have hb0 : (stdinStep fds.stdin_fd sys).2 = false :=
    (stdinStep_ok_no_sync fds.stdin_fd sys (Or.inl hneg)).1
  have hmem : ∀ x : ChildEvent, x ∈ (stdinStep fds.stdin_fd sys).1 →
      x ∈ childBranch fds sys eng := by
    intro x hx
    simp only [childBranch, hb0, Bool.false_eq_true, if_false]
    split
    · simp [hx]
    · split
      · simp [hx]
      · simp [hx]
  refine ⟨?_, ?_, ?_, ?_, ?_⟩
  · refine hmem _ ?_
    unfold stdinStep
    rw [if_neg (by omega)]
    split <;> simp
  · intro hop
    refine hmem _ ?_
    unfold stdinStep
    rw [if_neg (by omega), if_pos hop]
    simp
  · intro d
    simp [childBranch, stdinStep]
  · intro e hge hdup
    have h0 : fds.stdin_fd < 0 ∨ sys.dupStdin = none := Or.inl hneg
    obtain ⟨hb0', hw0, he0, -⟩ := stdinStep_ok_no_sync fds.stdin_fd sys h0
    constructor
    · simp [childBranch, redirectStep, hge, hdup, hb0', syncWrites_installSink_cons,
        syncWrites_append, hw0, (dupFailTail_obs fds.stdout_fd 1 e).1]
    · simp [childBranch, redirectStep, hge, hdup, hb0', childExit,
        exitList_installSink_cons, exitList_append, he0,
        (dupFailTail_obs fds.stdout_fd 1 e).2]
  · intro h1 h2
    exact (child_engine_exit fds sys eng (Or.inl hneg) h1 h2).1

/-- Witness for the amended C7: no stdin supplied, null device opened as
fd 3; a supplied stdout whose dup2 fails with errno 9 aborts the child with
handshake 9. -/
theorem child_null_stdin_witness :
    ChildEvent.openNullRO ∈
      childBranch ⟨-1, 4, -1, -1⟩ ⟨none, some 9, none, 3, none⟩ ⟨0, false⟩ ∧
    ChildEvent.dup2 3 0 ∈
      childBranch ⟨-1, 4, -1, -1⟩ ⟨none, some 9, none, 3, none⟩ ⟨0, false⟩ ∧
    childBranch ⟨-1, 4, -1, -1⟩ ⟨none, some 9, none, 3, some 13⟩ ⟨0, false⟩ =
      childBranch ⟨-1, 4, -1, -1⟩ ⟨none, some 9, none, 3, none⟩ ⟨0, false⟩ ∧
    syncWrites (childBranch ⟨-1, 4, -1, -1⟩ ⟨none, some 9, none, 3, none⟩
      ⟨0, false⟩) = [9] := by
  obtain ⟨ho, hd, hind, hsup, -⟩ := child_null_stdin ⟨-1, 4, -1, -1⟩
    ⟨none, some 9, none, 3, none⟩ ⟨0, false⟩ (by norm_num)
  obtain ⟨hw, -⟩ := hsup 9 (by norm_num) rfl
  norm_num at hw
  exact ⟨ho, hd (by norm_num), hind (some 13), hw⟩

/-! ## Container-list marshaling (`go_crun_list`, go_crun.c lines 125-144) -/

/-- Resource actions of `go_crun_list`, in execution order. -/
inductive ListEvent where
  | freeContainersList
  | makeAllocError
deriving DecidableEq, Repr

/-- Observable result of `go_crun_list`: the return code, the array stored
through `out` (`none` = never written) with NULL names replaced by the empty
string, the count stored through `out_len`, the error produced, and the
ordered trace of resource actions. -/
structure GoListResult where
  rc : Int
  out : Option (List String)
  out_len : Option Nat
  err : Option ErrVal
  trace : List ListEvent
deriving DecidableEq, Repr

/-- Shallow embedding of `go_crun_list`.  `enum` is the engine enumeration
outcome (`libcrun_get_containers_list`): a negative return code, or the
linked list of container names (`none` = a NULL `it->name`).  `callocFails`
is the allocation oracle for the `calloc` of the output array and `errno_`
the errno at that point. -/
def go_crun_list (enum : Except Int (List (Option String)))
    (callocFails : Bool) (errno_ : Nat) : GoListResult :=
  match enum with
  | Except.error rc => ⟨rc, none, none, none, []⟩
  | Except.ok lst =>
    let n := lst.length
    if callocFails then
      let r := libcrun_make_error (errno_ : Int) "calloc failed"
      ⟨r.1, none, none, some r.2,
        [ListEvent.freeContainersList, ListEvent.makeAllocError]⟩
    else
      ⟨0, some (lst.map fun name => name.getD ""), some n, none,
        [ListEvent.freeContainersList]⟩

/-- **C9** When the enumeration succeeds and is empty (and the allocation
succeeds), `go_crun_list` returns result 0 with a zero-length array and
count 0 and no error; when the array allocation fails after a successful
enumeration, the engine's list is released strictly before the allocation
error is reported, the result is negative, the error carries the errno and
nothing is stored through the out-pointers. -/
theorem go_crun_list_spec (lst : List (Option String)) (errno_ : Nat) :
    (go_crun_list (Except.ok []) false errno_ = ⟨0, some [], some 0, none,
      [ListEvent.freeContainersList]⟩) ∧
    (go_crun_list (Except.ok lst) true errno_ =
      ⟨-(errno_ : Int) - 1, none, none, some ⟨(errno_ : Int), "calloc failed"⟩,
        [ListEvent.freeContainersList, ListEvent.makeAllocError]⟩) ∧
    ((go_crun_list (Except.ok lst) true errno_).trace.indexOf
        ListEvent.freeContainersList <
      (go_crun_list (Except.ok lst) true errno_).trace.indexOf
        ListEvent.makeAllocError) ∧
    (go_crun_list (Except.ok lst) true errno_).rc < 0 := by
  refine ⟨rfl, rfl, ?_, ?_⟩
  · show List.indexOf ListEvent.freeContainersList
        [ListEvent.freeContainersList, ListEvent.makeAllocError] <
      List.indexOf ListEvent.makeAllocError
        [ListEvent.freeContainersList, ListEvent.makeAllocError]
    decide
  · show -(errno_ : Int) - 1 < 0
    omega

/-- Witness for C9: the empty enumeration, and an allocation failure with
errno 12 over a one-element enumeration with a NULL name. -/
theorem go_crun_list_spec_witness :
    go_crun_list (Except.ok []) false 12 =
      ⟨0, some [], some 0, none, [ListEvent.freeContainersList]⟩ ∧
    go_crun_list (Except.ok [none]) true 12 =
      ⟨-13, none, none, some ⟨12, "calloc failed"⟩,
        [ListEvent.freeContainersList, ListEvent.makeAllocError]⟩ := by
  obtain ⟨h1, h2, -, -⟩ := go_crun_list_spec [none] 12
  norm_num at h2
  exact ⟨h1, h2⟩

end GoCrun

